import Mathlib

/-
Verification of the chat relay backend (src/backend/chat/views.py).

The whole backend is one Django REST view, ChatView.post.  We embed it as a
pure function: the incoming request carries an optional text field, the
process environment carries the two variables the view reads, and the
upstream provider is modelled by an oracle value describing how the single
chat-completion call would end (a list of choice contents on success, or an
error object).  The Python openai exception classes are modelled by boolean
category flags on the error object: RateLimitError and APIConnectionError
are both subclasses of APIError in the openai library, so a single error
value can belong to several categories, and the sequential except clauses
of the view correspond to testing the flags in source order.

Besides the HTTP response, the embedded handler returns the list of
outbound chat-completion calls it performed, so that claims of the form
"no outbound call is attempted" are statable.
-/

namespace Chat

/-- A role/content message of the outbound message list. -/
structure Msg where
  role : String
  content : String
deriving Repr, DecidableEq

/-- One outbound chat-completion call, as configured by the view: the
client credentials and endpoint override passed to openai.OpenAI, and the
model and message list passed to chat.completions.create. -/
structure OutboundCall where
  apiKey : String
  baseUrl : Option String
  model : String
  messages : List Msg
deriving Repr, DecidableEq

/-- A provider-side failure.  The flags record which openai exception
classes the raised object belongs to; several can hold at once, matching
the subclass relations of the openai library (for example RateLimitError
is also an APIError).  The message field is the str form of the error. -/
structure ProviderError where
  isConnectionError : Bool
  isRateLimitError : Bool
  isAPIError : Bool
  message : String
deriving Repr, DecidableEq

/-- Outcome of the single chat-completion call: the contents of the
returned choices on success, or a raised provider error. -/
inductive CallResult where
  | success (choices : List String)
  | failure (e : ProviderError)
deriving Repr, DecidableEq

/-- The JSON body returned by the view: either a response field or an
error field, each holding one string. -/
inductive Body where
  | response (s : String)
  | error (s : String)
deriving Repr, DecidableEq

/-- An HTTP response: JSON body plus status code. -/
structure HttpResponse where
  body : Body
  status : Nat
deriving Repr, DecidableEq

/-- The two environment variables the view reads; none models an unset
variable, matching the None returned by os.getenv. -/
structure Env where
  OPENAI_API_KEY : Option String
  BASE_URL : Option String
deriving Repr, DecidableEq

/-- The incoming request body: the text field may be missing (none) or
present.  request.data.get applied with default yields the empty string
when the field is missing. -/
structure Request where
  text : Option String
deriving Repr, DecidableEq

/-- Embedding of ChatView.post from src/backend/chat/views.py.

Line by line: user_text is request.data.get with default empty string; a
falsy user_text returns 400 before the environment is read; os.getenv
reads the two variables; a falsy api_key (None or empty) returns 500
before any client is built; otherwise the openai client is built with the
key and base_url and one chat.completions.create call is issued with the
fixed model and a single user message.  On success the view indexes
choices at 0 — an empty choices list raises IndexError inside the try
block, which falls through to the final except Exception clause.  The
except clauses are tried in source order: APIConnectionError, then
RateLimitError, then APIError, then Exception.

The second component of the result is the list of outbound calls made. -/
def ChatView.post (request : Request) (env : Env) (provider : CallResult) :
    HttpResponse × List OutboundCall :=
  let user_text := request.text.getD ""
  if user_text = "" then
    (⟨Body.error "No text provided", 400⟩, [])
  else
    let api_key := env.OPENAI_API_KEY
    let base_url := env.BASE_URL
    if api_key.getD "" = "" then
      (⟨Body.error "Server configuration error: OpenAI API key missing", 500⟩, [])
    else
      let call : OutboundCall :=
        ⟨api_key.getD "", base_url, "deepseek/deepseek-r1-0528:free",
         [⟨"user", user_text⟩]⟩
      match provider with
      | CallResult.success choices =>
        match choices with
        | c :: _ => (⟨Body.response c, 200⟩, [call])
        | [] =>
          (⟨Body.error "An unexpected error occurred on the server.", 500⟩, [call])
      | CallResult.failure e =>
        if e.isConnectionError then
          (⟨Body.error "Failed to connect to OpenAI API. Please check your network connection.",
            503⟩, [call])
        else if e.isRateLimitError then
          (⟨Body.error "OpenAI API rate limit exceeded. Please try again later.",
            429⟩, [call])
        else if e.isAPIError then
          (⟨Body.error ("OpenAI API returned an error: " ++ e.message), 502⟩, [call])
        else
          (⟨Body.error "An unexpected error occurred on the server.", 500⟩, [call])

/-- Outcome of one invocation of the view as seen by the hosting web
framework: either an HTTP response produced by the view (together with
the outbound calls made), or an exception that left the view uncaught
and is handled by the framework, not by the view. -/
inductive Outcome where
  | response (r : HttpResponse) (calls : List OutboundCall)
  | uncaughtException (msg : String)
deriving Repr, DecidableEq

/-- Embedding of ChatView.post including the fallibility of the client
construction at views.py line 20.  openai.OpenAI eagerly parses base_url
through httpx.URL, which raises httpx.InvalidURL on a malformed value
(for example a port out of range), and the constructor runs after the
key check but outside the try block, so such an exception is caught by
none of the except clauses and leaves the view uncaught.  Whether the
construction raises for the given environment is supplied by the oracle
clientError, carrying the str form of the raised exception when it does;
the provider oracle is consulted only when construction succeeds, in
which case the view proceeds exactly as ChatView.post describes, so this
function delegates to it there.  ChatView.post is the clientError = none
slice of this function. -/
def ChatView.postRaising (request : Request) (env : Env)
    (clientError : Option String) (provider : CallResult) : Outcome :=
  let user_text := request.text.getD ""
  if user_text = "" then
    Outcome.response ⟨Body.error "No text provided", 400⟩ []
  else
    let api_key := env.OPENAI_API_KEY
    if api_key.getD "" = "" then
      Outcome.response
        ⟨Body.error "Server configuration error: OpenAI API key missing", 500⟩ []
    else
      match clientError with
      | some m => Outcome.uncaughtException m
      | none =>
        Outcome.response (ChatView.post request env provider).1
          (ChatView.post request env provider).2

/-- The body/status table of section 4.1 of the spec, together with the
success row: every response the handler can produce must be one of these. -/
def inErrorTable (r : HttpResponse) : Prop :=
  (∃ c, r = ⟨Body.response c, 200⟩) ∨
  r = ⟨Body.error "No text provided", 400⟩ ∨
  r = ⟨Body.error "Server configuration error: OpenAI API key missing", 500⟩ ∨
  r = ⟨Body.error "Failed to connect to OpenAI API. Please check your network connection.", 503⟩ ∨
  r = ⟨Body.error "OpenAI API rate limit exceeded. Please try again later.", 429⟩ ∨
  (∃ m, r = ⟨Body.error ("OpenAI API returned an error: " ++ m), 502⟩) ∨
  r = ⟨Body.error "An unexpected error occurred on the server.", 500⟩

/-- Every response the handler can produce is a row of the table: either a
200 success body, or one of the five error body/status pairs. -/
theorem post_inErrorTable (r : Request) (env : Env) (p : CallResult) :
    inErrorTable (ChatView.post r env p).1 := by
  obtain ⟨t⟩ := r
  unfold ChatView.post inErrorTable
  dsimp only
  split
  · simp
  · split
    · simp
    · rcases p with choices | e
      · rcases choices with _ | ⟨c, rest⟩ <;> simp
      · dsimp only
        split
        · simp
        · split
          · simp
          · split
            · exact Or.inr (Or.inr (Or.inr (Or.inr (Or.inr (Or.inl ⟨e.message, rfl⟩)))))
            · simp

/-- Claim C1: for a request with non-empty text and a present API key,
when the provider call succeeds the handler issues exactly one outbound
chat-completion call, whose message list is the single user message with
the request text and whose model is the fixed deepseek identifier, and
returns the body holding the content of the first choice with status
200. -/
theorem c1_success_one_call (t k c : String) (rest : List String) (bu : Option String)
    (ht : t ≠ "") (hk : k ≠ "") :
    ChatView.post ⟨some t⟩ ⟨some k, bu⟩ (CallResult.success (c :: rest)) =
      (⟨Body.response c, 200⟩,
       [⟨k, bu, "deepseek/deepseek-r1-0528:free", [⟨"user", t⟩]⟩]) := by
  simp [ChatView.post, ht, hk]

/-- Witness for C1 at a concrete request and provider reply. -/
theorem c1_success_one_call_witness :
    ChatView.post ⟨some "hi"⟩ ⟨some "sk-test", none⟩ (CallResult.success ["Hello!"]) =
      (⟨Body.response "Hello!", 200⟩,
       [⟨"sk-test", none, "deepseek/deepseek-r1-0528:free", [⟨"user", "hi"⟩]⟩]) :=
  c1_success_one_call "hi" "sk-test" "Hello!" [] none (by decide) (by decide)

/-- Claim C2: for a request whose text field is missing or empty, the
handler returns the fixed 400 body, performs no outbound call, and its
result does not depend on the environment or on the provider — no
configuration read and no provider call can influence it. -/
theorem c2_no_text (r : Request) (env env2 : Env) (p p2 : CallResult)
    (h : r.text = none ∨ r.text = some "") :
    ChatView.post r env p = (⟨Body.error "No text provided", 400⟩, []) ∧
    ChatView.post r env p = ChatView.post r env2 p2 := by
  obtain ⟨t⟩ := r
  rcases h with h | h <;> simp only [Request.mk.injEq] at h <;> subst h <;>
    simp [ChatView.post]

/-- Witness for C2 at a concrete request with a missing text field. -/
theorem c2_no_text_witness :
    ChatView.post ⟨none⟩ ⟨some "sk-test", none⟩ (CallResult.success ["Hello!"]) =
      (⟨Body.error "No text provided", 400⟩, []) ∧
    ChatView.post ⟨none⟩ ⟨some "sk-test", none⟩ (CallResult.success ["Hello!"]) =
      ChatView.post ⟨none⟩ ⟨none, some "u"⟩ (CallResult.failure ⟨true, false, false, "x"⟩) :=
  c2_no_text ⟨none⟩ ⟨some "sk-test", none⟩ ⟨none, some "u"⟩
    (CallResult.success ["Hello!"]) (CallResult.failure ⟨true, false, false, "x"⟩)
    (Or.inl rfl)

/-- Claim C3: for a request with non-empty text, when OPENAI_API_KEY is
unset the handler returns the fixed configuration-error body with status
500 and performs no outbound call; the provider oracle is never
consulted, as the result is a constant. -/
theorem c3_missing_key (t : String) (bu : Option String) (p : CallResult)
    (ht : t ≠ "") :
    ChatView.post ⟨some t⟩ ⟨none, bu⟩ p =
      (⟨Body.error "Server configuration error: OpenAI API key missing", 500⟩, []) := by
  simp [ChatView.post, ht]

/-- Witness for C3 at a concrete request and environment. -/
theorem c3_missing_key_witness :
    ChatView.post ⟨some "hi"⟩ ⟨none, none⟩ (CallResult.success ["Hello!"]) =
      (⟨Body.error "Server configuration error: OpenAI API key missing", 500⟩, []) :=
  c3_missing_key "hi" none (CallResult.success ["Hello!"]) (by decide)

/-- Whenever the client construction does not raise, the full embedding
agrees with ChatView.post: every failure arising inside the try block is
converted to a row of the table, by post_inErrorTable. -/
theorem postRaising_agrees (r : Request) (env : Env) (p : CallResult) :
    ChatView.postRaising r env none p =
      Outcome.response (ChatView.post r env p).1 (ChatView.post r env p).2 := by
  by_cases ht : r.text.getD "" = "" <;>
    by_cases hk : env.OPENAI_API_KEY.getD "" = "" <;>
      simp [ChatView.postRaising, ChatView.post, ht, hk]

/-- Claim C4 is contradicted by the code: the client construction at
views.py line 20 stands outside the try block, so when it raises — which
openai.OpenAI does, via eager httpx.URL parsing, on a malformed BASE_URL
such as one with a port out of range — the exception is converted by no
except clause, the catch-all included, and propagates out of the view
uncaught, for every provider oracle; no body/status pair of the table is
produced.  The spec states that all failures are caught at the handler
boundary, so the claim reflects the intent and the placement of line 20
is the slip. -/
theorem c4_construction_escapes (t k u m : String) (p : CallResult)
    (ht : t ≠ "") (hk : k ≠ "") :
    ChatView.postRaising ⟨some t⟩ ⟨some k, some u⟩ (some m) p =
      Outcome.uncaughtException m := by
  simp [ChatView.postRaising, ht, hk]

/-- Witness for C4 at the failing input: text present, key present,
BASE_URL a malformed URL whose parse raises inside the constructor. -/
theorem c4_construction_escapes_witness :
    ChatView.postRaising ⟨some "hi"⟩ ⟨some "sk-test", some "http://host:99999999"⟩
        (some "httpx.InvalidURL: port out of range") (CallResult.success ["Hello!"]) =
      Outcome.uncaughtException "httpx.InvalidURL: port out of range" :=
  c4_construction_escapes "hi" "sk-test" "http://host:99999999"
    "httpx.InvalidURL: port out of range" (CallResult.success ["Hello!"])
    (by decide) (by decide)

/-- Claim C5: a provider failure of the generic API category (and of no
more specific category) with message m yields status 502 with the error
body obtained by appending m to the fixed prefix text. -/
theorem c5_api_error (t k m : String) (bu : Option String)
    (ht : t ≠ "") (hk : k ≠ "") :
    (ChatView.post ⟨some t⟩ ⟨some k, bu⟩
        (CallResult.failure ⟨false, false, true, m⟩)).1 =
      ⟨Body.error ("OpenAI API returned an error: " ++ m), 502⟩ := by
  simp [ChatView.post, ht, hk]

/-- Witness for C5 at the message of the spec example; the resulting body
is exactly the concatenated string. -/
theorem c5_api_error_witness :
    (ChatView.post ⟨some "hi"⟩ ⟨some "sk-test", none⟩
        (CallResult.failure ⟨false, false, true, "bad request body"⟩)).1 =
      ⟨Body.error "OpenAI API returned an error: bad request body", 502⟩ := by
  have h := c5_api_error "hi" "sk-test" "bad request body" none (by decide) (by decide)
  rw [h]
  rfl

/-- Claim C6: a provider failure of the connection category yields status
503 with the fixed connection message, and a rate-limit failure that is
not a connection failure yields status 429 with the fixed rate-limit
message; both bodies are constants independent of the error message, so
no raw provider text appears in them. -/
theorem c6_connection_rate_limit (t k : String) (bu : Option String) (e : ProviderError)
    (ht : t ≠ "") (hk : k ≠ "") :
    (e.isConnectionError = true →
      (ChatView.post ⟨some t⟩ ⟨some k, bu⟩ (CallResult.failure e)).1 =
        ⟨Body.error "Failed to connect to OpenAI API. Please check your network connection.",
          503⟩) ∧
    (e.isConnectionError = false → e.isRateLimitError = true →
      (ChatView.post ⟨some t⟩ ⟨some k, bu⟩ (CallResult.failure e)).1 =
        ⟨Body.error "OpenAI API rate limit exceeded. Please try again later.", 429⟩) := by
  constructor
  · intro hc
    simp [ChatView.post, ht, hk, hc]
  · intro hc hr
    simp [ChatView.post, ht, hk, hc, hr]

/-- Witness for C6 at a concrete connection failure; the raw provider
message does not occur in the body. -/
theorem c6_connection_rate_limit_witness :
    (ChatView.post ⟨some "hi"⟩ ⟨some "sk-test", none⟩
        (CallResult.failure ⟨true, false, false, "raw detail"⟩)).1 =
      ⟨Body.error "Failed to connect to OpenAI API. Please check your network connection.",
        503⟩ :=
  (c6_connection_rate_limit "hi" "sk-test" none ⟨true, false, false, "raw detail"⟩
    (by decide) (by decide)).1 rfl

/-- Claim C7: the failure categories are tested in the source order
connection, rate-limit, API, catch-all, so a failure belonging to several
categories gets the response of the most specific one: a rate-limit
failure that is also an API failure yields 429, and a connection failure
that is also a rate-limit or API failure yields 503. -/
theorem c7_priority (t k m : String) (bu : Option String)
    (ht : t ≠ "") (hk : k ≠ "") :
    ((ChatView.post ⟨some t⟩ ⟨some k, bu⟩
        (CallResult.failure ⟨false, true, true, m⟩)).1 =
      ⟨Body.error "OpenAI API rate limit exceeded. Please try again later.", 429⟩) ∧
    ((ChatView.post ⟨some t⟩ ⟨some k, bu⟩
        (CallResult.failure ⟨true, true, true, m⟩)).1 =
      ⟨Body.error "Failed to connect to OpenAI API. Please check your network connection.",
        503⟩) ∧
    ((ChatView.post ⟨some t⟩ ⟨some k, bu⟩
        (CallResult.failure ⟨true, false, true, m⟩)).1 =
      ⟨Body.error "Failed to connect to OpenAI API. Please check your network connection.",
        503⟩) := by
  refine ⟨?_, ?_, ?_⟩ <;> simp [ChatView.post, ht, hk]

/-- Witness for C7 at a concrete multi-category failure. -/
theorem c7_priority_witness :
    (ChatView.post ⟨some "hi"⟩ ⟨some "sk-test", none⟩
        (CallResult.failure ⟨false, true, true, "429 detail"⟩)).1 =
      ⟨Body.error "OpenAI API rate limit exceeded. Please try again later.", 429⟩ :=
  (c7_priority "hi" "sk-test" "429 detail" none (by decide) (by decide)).1

/-- Claim C8: for a valid request, the handler performs exactly one
outbound call, and the base URL the client is built with equals the
BASE_URL environment value — some u when the variable is set to u, none
(the provider default) when it is unset. -/
theorem c8_base_url (t k : String) (bu : Option String) (p : CallResult)
    (ht : t ≠ "") (hk : k ≠ "") :
    (ChatView.post ⟨some t⟩ ⟨some k, bu⟩ p).2 =
      [⟨k, bu, "deepseek/deepseek-r1-0528:free", [⟨"user", t⟩]⟩] := by
  rcases p with choices | e
  · rcases choices with _ | ⟨c, rest⟩ <;> simp [ChatView.post, ht, hk]
  · by_cases hc : e.isConnectionError = true
    · simp [ChatView.post, ht, hk, hc]
    · by_cases hr : e.isRateLimitError = true
      · simp [ChatView.post, ht, hk, hc, hr]
      · by_cases ha : e.isAPIError = true <;> simp [ChatView.post, ht, hk, hc, hr, ha]

/-- Witness for C8 at a concrete override URL and at an unset BASE_URL. -/
theorem c8_base_url_witness :
    (ChatView.post ⟨some "hi"⟩ ⟨some "sk-test", some "https://proxy.test/v1"⟩
        (CallResult.success ["Hello!"])).2 =
      [⟨"sk-test", some "https://proxy.test/v1", "deepseek/deepseek-r1-0528:free",
        [⟨"user", "hi"⟩]⟩] ∧
    (ChatView.post ⟨some "hi"⟩ ⟨some "sk-test", none⟩
        (CallResult.success ["Hello!"])).2 =
      [⟨"sk-test", none, "deepseek/deepseek-r1-0528:free", [⟨"user", "hi"⟩]⟩] :=
  ⟨c8_base_url "hi" "sk-test" (some "https://proxy.test/v1")
      (CallResult.success ["Hello!"]) (by decide) (by decide),
   c8_base_url "hi" "sk-test" none
      (CallResult.success ["Hello!"]) (by decide) (by decide)⟩

/-- Claim C9: an OPENAI_API_KEY set to the empty string is treated exactly
like an unset key: the fixed 500 configuration-error body, no outbound
call, and the same result as with the variable unset. -/
theorem c9_empty_key (t : String) (bu : Option String) (p p2 : CallResult)
    (ht : t ≠ "") :
    ChatView.post ⟨some t⟩ ⟨some "", bu⟩ p =
      (⟨Body.error "Server configuration error: OpenAI API key missing", 500⟩, []) ∧
    ChatView.post ⟨some t⟩ ⟨some "", bu⟩ p = ChatView.post ⟨some t⟩ ⟨none, bu⟩ p2 := by
  constructor <;> simp [ChatView.post, ht]

/-- Witness for C9 at a concrete request with an empty key. -/
theorem c9_empty_key_witness :
    ChatView.post ⟨some "hi"⟩ ⟨some "", none⟩ (CallResult.success ["Hello!"]) =
      (⟨Body.error "Server configuration error: OpenAI API key missing", 500⟩, []) ∧
    ChatView.post ⟨some "hi"⟩ ⟨some "", none⟩ (CallResult.success ["Hello!"]) =
      ChatView.post ⟨some "hi"⟩ ⟨none, none⟩ (CallResult.failure ⟨true, false, false, "x"⟩) :=
  c9_empty_key "hi" none (CallResult.success ["Hello!"])
    (CallResult.failure ⟨true, false, false, "x"⟩) (by decide)

/-- Claim C10: a successful provider call with an empty choices list does
not produce a 200 success body; the out-of-bounds access is absorbed by
the catch-all and the caller receives the fixed 500 body. -/
theorem c10_empty_choices (t k : String) (bu : Option String)
    (ht : t ≠ "") (hk : k ≠ "") :
    (ChatView.post ⟨some t⟩ ⟨some k, bu⟩ (CallResult.success [])).1 =
      ⟨Body.error "An unexpected error occurred on the server.", 500⟩ ∧
    (ChatView.post ⟨some t⟩ ⟨some k, bu⟩ (CallResult.success [])).1.status ≠ 200 := by
  constructor <;> simp [ChatView.post, ht, hk]

/-- Witness for C10 at a concrete request. -/
theorem c10_empty_choices_witness :
    (ChatView.post ⟨some "hi"⟩ ⟨some "sk-test", none⟩ (CallResult.success [])).1 =
      ⟨Body.error "An unexpected error occurred on the server.", 500⟩ ∧
    (ChatView.post ⟨some "hi"⟩ ⟨some "sk-test", none⟩ (CallResult.success [])).1.status ≠ 200 :=
  c10_empty_choices "hi" "sk-test" none (by decide) (by decide)

end Chat
